import Mathlib

/-!
Verification of the credential-verification core of the Smart-Bus-Stop login
program (`src/login.py`).

The Python function `verify_credentials(email, password)` is embedded as a
Lean function over an explicit environment `Env` that models its external
collaborators:

* `connect` models `mysql.connector.connect(**DB_CONFIG)` (line 19): it
  either succeeds or raises an exception carrying a message;
* `execute` models `cur.execute("SELECT id, email, hashed_password FROM
  users WHERE email=%s", (email,))` (line 21): the query may raise;
* `fetchone` models `cur.fetchone()` (line 22): it may raise, or return
  zero or one row for the queried email;
* `hverify` models `pwd_context.verify(password, row["hashed_password"])`
  (line 27): passlib either returns a boolean or raises (e.g. on a
  malformed hash blob).

The Python `try`/`except Exception` wrapper (lines 18, 31-32) is embedded
directly: every raising branch flows to the handler, which returns
`(False, "DB error: " ++ e)`.  The Python result pair `(ok, info)` — where
`info` is the numeric user id when `ok` is true and a message string when
`ok` is false — is embedded as `Bool × (Nat ⊕ String)`.

To reason about resource handling, the embedding additionally records the
resource state at return (`finalState`: which of the connection and the
cursor are still open) and the trace of completed external actions, in
program order.  The source has no `with`-block and no `finally`: `cur.close()`
and `conn.close()` (lines 23-24) run only on the straight-line path, so a
branch that raises between `connect` and the two `close` calls returns
through the `except` handler with the connection still open.
-/

/-- A row of the `users` table, as selected on line 21 of `src/login.py`:
`SELECT id, email, hashed_password FROM users WHERE email=%s`. -/
structure CredentialRecord where
  id : Nat
  email : String
  hashed_password : String
  deriving DecidableEq, Repr

/-- Completed external actions of one `verify_credentials` run, in program
order: successful connect (line 19), cursor creation (line 20), query
execution (line 21), row fetch (line 22), cursor close (line 23), connection
close (line 24), and invocation of the hash comparison (line 27). -/
inductive Ev where
  | evConnect
  | evCursor
  | evQuery
  | evFetch
  | evCloseCursor
  | evCloseConn
  | evHashVerify
  deriving DecidableEq, Repr

/-- Which store resources are open: the MySQL connection (`conn`) and the
cursor (`cur`). -/
structure ResState where
  connOpen : Bool
  curOpen : Bool
  deriving DecidableEq, Repr

/-- The external collaborators of `verify_credentials`: the database
(connection, query execution, row fetch, each of which may raise) and the
passlib context (whose `verify` may raise, e.g. on a malformed hash blob).
An `Except.error` value carries the stringified exception message that the
`except` handler on lines 31-32 would interpolate. -/
structure Env where
  connect : Except String Unit
  execute : String → Except String Unit
  fetchone : String → Except String (Option CredentialRecord)
  hverify : String → String → Except String Bool

/-- Full observable outcome of one `verify_credentials` call: the returned
Python pair, the resource state at return, and the trace of completed
external actions. -/
structure VOut where
  result : Bool × (Nat ⊕ String)
  finalState : ResState
  trace : List Ev
  deriving DecidableEq, Repr

/-- Embedding of `verify_credentials` (`src/login.py` lines 17-32).

Straight-line path: connect (19), create cursor (20), execute the query for
`email` (21), fetch the row (22), close cursor (23), close connection (24);
if no row, return `(False, "User not found")` (25-26); otherwise compare the
password against the stored hash (27) and return `(True, row id)` (28) or
`(False, "Incorrect password")` (29-30).  Any raise reaches the handler on
lines 31-32, which returns `(False, "DB error: " ++ e)` without closing
anything. -/
def verify_credentials (env : Env) (email password : String) : VOut :=
  match env.connect with
  | .error e =>
      { result := (false, Sum.inr ("DB error: " ++ e))
        finalState := { connOpen := false, curOpen := false }
        trace := [] }
  | .ok _ =>
      match env.execute email with
      | .error e =>
          { result := (false, Sum.inr ("DB error: " ++ e))
            finalState := { connOpen := true, curOpen := true }
            trace := [.evConnect, .evCursor] }
      | .ok _ =>
          match env.fetchone email with
          | .error e =>
              { result := (false, Sum.inr ("DB error: " ++ e))
                finalState := { connOpen := true, curOpen := true }
                trace := [.evConnect, .evCursor, .evQuery] }
          | .ok none =>
              { result := (false, Sum.inr "User not found")
                finalState := { connOpen := false, curOpen := false }
                trace := [.evConnect, .evCursor, .evQuery, .evFetch,
                          .evCloseCursor, .evCloseConn] }
          | .ok (some row) =>
              match env.hverify password row.hashed_password with
              | .error e =>
                  { result := (false, Sum.inr ("DB error: " ++ e))
                    finalState := { connOpen := false, curOpen := false }
                    trace := [.evConnect, .evCursor, .evQuery, .evFetch,
                              .evCloseCursor, .evCloseConn, .evHashVerify] }
              | .ok true =>
                  { result := (true, Sum.inl row.id)
                    finalState := { connOpen := false, curOpen := false }
                    trace := [.evConnect, .evCursor, .evQuery, .evFetch,
                              .evCloseCursor, .evCloseConn, .evHashVerify] }
              | .ok false =>
                  { result := (false, Sum.inr "Incorrect password")
                    finalState := { connOpen := false, curOpen := false }
                    trace := [.evConnect, .evCursor, .evQuery, .evFetch,
                              .evCloseCursor, .evCloseConn, .evHashVerify] }

/-- Embedding of the verification part of `on_login` (`src/login.py`
lines 35-38): both entry strings are stripped of surrounding whitespace
(`.strip()`, embedded as `String.trim`) before `verify_credentials` is
called.  The dialog display (lines 39-43) is presentation and not modelled. -/
def on_login (env : Env) (entry_email entry_password : String) :
    Bool × (Nat ⊕ String) :=
  (verify_credentials env entry_email.trim entry_password.trim).result

/-- `closedBeforeHash t ku kc` checks that in trace `t` every hash-comparison
invocation is preceded by both a cursor close and a connection close;
`ku`/`kc` record whether a cursor close / connection close has been seen
already. -/
def closedBeforeHash : List Ev → Bool → Bool → Bool
  | [], _, _ => true
  | Ev.evCloseCursor :: t, _, kc => closedBeforeHash t true kc
  | Ev.evCloseConn :: t, ku, _ => closedBeforeHash t ku true
  | Ev.evHashVerify :: t, ku, kc => ku && kc && closedBeforeHash t ku kc
  | _ :: t, ku, kc => closedBeforeHash t ku kc

/-- A healthy store holding the spec's concrete scenario record
`{id: 42, identifier: "alice@example.com", secretHash: hash("s3cr3t")}`
(spec section 8, property 6), with an abstract hasher that certifies exactly
the password `"s3cr3t"` against the stored blob `"h"`. -/
def demoEnv : Env where
  connect := .ok ()
  execute := fun _ => .ok ()
  fetchone := fun e => .ok (if e = "alice@example.com" then some ⟨42, "alice@example.com", "h"⟩ else none)
  hverify := fun p h => .ok (p == "s3cr3t" && h == "h")

/-- Like `demoEnv` but the store's contents differ at every identifier other
than `"alice@example.com"`. -/
def demoEnv2 : Env where
  connect := .ok ()
  execute := fun _ => .ok ()
  fetchone := fun e => .ok (if e = "alice@example.com" then some ⟨42, "alice@example.com", "h"⟩ else some ⟨7, "bob@example.com", "x"⟩)
  hverify := fun p h => .ok (p == "s3cr3t" && h == "h")

/-- A store whose connection attempt raises (`mysql.connector.connect`
fails): models an unreachable database. -/
def downEnv : Env where
  connect := .error "connection refused"
  execute := fun _ => .ok ()
  fetchone := fun _ => .ok none
  hverify := fun _ _ => .ok false

/-- A store that accepts the connection but whose query execution raises:
models a query error after the connection was acquired. -/
def queryFailEnv : Env where
  connect := .ok ()
  execute := fun _ => .error "query failed"
  fetchone := fun _ => .ok none
  hverify := fun _ _ => .ok false

/-- A healthy store whose stored hash blob is malformed, so that passlib's
`verify` raises instead of returning a boolean. -/
def malformedHashEnv : Env where
  connect := .ok ()
  execute := fun _ => .ok ()
  fetchone := fun _ => .ok (some ⟨42, "alice@example.com", "not-a-bcrypt-blob"⟩)
  hverify := fun _ _ => .error "malformed bcrypt hash"

example : (verify_credentials demoEnv "alice@example.com" "s3cr3t").result = (true, Sum.inl 42) := by decide
example : (verify_credentials demoEnv "alice@example.com" "wrong").result = (false, Sum.inr "Incorrect password") := by decide
example : (verify_credentials demoEnv "bob@example.com" "s3cr3t").result = (false, Sum.inr "User not found") := by decide

/-- The `except` handler's message (line 32, `f"DB error: {e}"`) never
collides with the not-found message of line 26, whatever the exception text:
the first character differs. -/
theorem dbError_ne_userNotFound (d : String) : "DB error: " ++ d ≠ "User not found" := by
  intro h
  have h2 : ('D' : Char) :: ("B error: ".data ++ d.data) = 'U' :: "ser not found".data :=
    congrArg String.data h
  exact absurd (List.cons.inj h2).1 (by decide)

/-- The `except` handler's message never collides with the bad-password
message of line 30, whatever the exception text. -/
theorem dbError_ne_incorrectPassword (d : String) : "DB error: " ++ d ≠ "Incorrect password" := by
  intro h
  have h2 : ('D' : Char) :: ("B error: ".data ++ d.data) = 'I' :: "ncorrect password".data :=
    congrArg String.data h
  exact absurd (List.cons.inj h2).1 (by decide)

/-- C1: `verify_credentials` returns a success result (`True` first
component) exactly when the store lookup completes and yields a record for
the identifier and the hasher returns `True` (without raising) for the
supplied plaintext against that record's stored hash.  Holding a record is
expressed operationally: connection, query and fetch succeed and the fetch
yields the record.  No other execution path produces a success result. -/
theorem success_iff_record_found_and_hash_match (env : Env) (e p : String) :
    (verify_credentials env e p).result.1 = true ↔
      (env.connect = .ok () ∧ env.execute e = .ok () ∧
        ∃ r, env.fetchone e = .ok (some r) ∧
          env.hverify p r.hashed_password = .ok true) := by
  unfold verify_credentials
  rcases hc : env.connect with d | ⟨⟩
  · simp
  · rcases hq : env.execute e with d | ⟨⟩
    · simp
    · rcases hf : env.fetchone e with d | o
      · simp
      · rcases o with _ | r
        · simp
        · rcases hb : env.hverify p r.hashed_password with d | b
          · simp [hb]
          · rcases b with _ | _
            · simp [hb]
            · simp [hb]

/-- C2: when the lookup completes and finds no record for the identifier,
`verify_credentials` returns `(False, "User not found")`, and the supplied
secret has no influence: any two secrets give the same outcome. -/
theorem notFound_for_missing_record (env : Env) (e : String)
    (hc : env.connect = .ok ()) (hq : env.execute e = .ok ())
    (hf : env.fetchone e = .ok none) (p p' : String) :
    (verify_credentials env e p).result = (false, Sum.inr "User not found") ∧
    verify_credentials env e p = verify_credentials env e p' := by
  unfold verify_credentials
  rw [hc, hq, hf]
  exact ⟨rfl, rfl⟩

theorem notFound_for_missing_record_witness :
    (verify_credentials demoEnv "bob@example.com" "s3cr3t").result
        = (false, Sum.inr "User not found") ∧
    verify_credentials demoEnv "bob@example.com" "s3cr3t"
        = verify_credentials demoEnv "bob@example.com" "hunter2" :=
  notFound_for_missing_record demoEnv "bob@example.com" rfl rfl rfl "s3cr3t" "hunter2"

/-- C3: when the lookup finds a record and the hasher certifies the supplied
secret against its stored hash, `verify_credentials` returns
`(True, id)` where `id` is exactly the internal id field of that record. -/
theorem success_with_record_id (env : Env) (e p : String) (r : CredentialRecord)
    (hc : env.connect = .ok ()) (hq : env.execute e = .ok ())
    (hf : env.fetchone e = .ok (some r))
    (hh : env.hverify p r.hashed_password = .ok true) :
    (verify_credentials env e p).result = (true, Sum.inl r.id) := by
  unfold verify_credentials
  rw [hc, hq, hf]
  simp [hh]

theorem success_with_record_id_witness :
    (verify_credentials demoEnv "alice@example.com" "s3cr3t").result
      = (true, Sum.inl 42) :=
  success_with_record_id demoEnv "alice@example.com" "s3cr3t"
    ⟨42, "alice@example.com", "h"⟩ rfl rfl rfl rfl

/-- C4: when the lookup finds a record and the hasher reports that the
supplied secret does not match its stored hash, `verify_credentials`
returns `(False, "Incorrect password")`. -/
theorem badSecret_on_hash_mismatch (env : Env) (e p : String) (r : CredentialRecord)
    (hc : env.connect = .ok ()) (hq : env.execute e = .ok ())
    (hf : env.fetchone e = .ok (some r))
    (hh : env.hverify p r.hashed_password = .ok false) :
    (verify_credentials env e p).result = (false, Sum.inr "Incorrect password") := by
  unfold verify_credentials
  rw [hc, hq, hf]
  simp [hh]

theorem badSecret_on_hash_mismatch_witness :
    (verify_credentials demoEnv "alice@example.com" "wrong").result
      = (false, Sum.inr "Incorrect password") :=
  badSecret_on_hash_mismatch demoEnv "alice@example.com" "wrong"
    ⟨42, "alice@example.com", "h"⟩ rfl rfl rfl rfl

/-- C5: if the store lookup fails infrastructurally — the connection attempt
raises, or the query execution raises, or the row fetch raises — then for
every identifier/secret pair the result is `(False, "DB error: " ++ d)`:
never a success, and the message collides with neither the not-found nor the
bad-password message, so the three failure kinds stay distinguishable. -/
theorem storeError_on_infrastructure_failure (env : Env) (e p d : String)
    (hfail : env.connect = .error d ∨
      (env.connect = .ok () ∧ env.execute e = .error d) ∨
      (env.connect = .ok () ∧ env.execute e = .ok () ∧ env.fetchone e = .error d)) :
    (verify_credentials env e p).result = (false, Sum.inr ("DB error: " ++ d)) ∧
    (verify_credentials env e p).result.1 = false ∧
    ("DB error: " ++ d) ≠ "User not found" ∧
    ("DB error: " ++ d) ≠ "Incorrect password" := by
  have hres : (verify_credentials env e p).result
      = (false, Sum.inr ("DB error: " ++ d)) := by
    rcases hfail with hc | ⟨hc, hq⟩ | ⟨hc, hq, hf⟩
    · unfold verify_credentials; rw [hc]
    · unfold verify_credentials; rw [hc, hq]
    · unfold verify_credentials; rw [hc, hq, hf]
  exact ⟨hres, by rw [hres], dbError_ne_userNotFound d, dbError_ne_incorrectPassword d⟩

theorem storeError_on_infrastructure_failure_witness :
    (verify_credentials downEnv "alice@example.com" "s3cr3t").result
        = (false, Sum.inr ("DB error: " ++ "connection refused")) ∧
    (verify_credentials downEnv "alice@example.com" "s3cr3t").result.1 = false ∧
    ("DB error: " ++ "connection refused") ≠ "User not found" ∧
    ("DB error: " ++ "connection refused") ≠ "Incorrect password" :=
  storeError_on_infrastructure_failure downEnv "alice@example.com" "s3cr3t"
    "connection refused" (Or.inl rfl)

/-- C6: `verify_credentials` is a total function (the `try`/`except
Exception` wrapper catches every raise from the collaborators), and on every
input its returned pair has exactly one of two shapes: `(True, id)` for some
numeric id, or `(False, msg)` with `msg` drawn from the fixed taxonomy — the
not-found message, the bad-password message, or a store-error message of the
form `"DB error: " ++ d`. -/
theorem result_always_well_shaped (env : Env) (e p : String) :
    (∃ n, (verify_credentials env e p).result = (true, Sum.inl n)) ∨
    (∃ s, (verify_credentials env e p).result = (false, Sum.inr s) ∧
      (s = "User not found" ∨ s = "Incorrect password" ∨
        ∃ d, s = "DB error: " ++ d)) := by
  unfold verify_credentials
  rcases env.connect with d1 | ⟨⟩
  · exact Or.inr ⟨"DB error: " ++ d1, rfl, Or.inr (Or.inr ⟨d1, rfl⟩)⟩
  · rcases env.execute e with d2 | ⟨⟩
    · exact Or.inr ⟨"DB error: " ++ d2, rfl, Or.inr (Or.inr ⟨d2, rfl⟩)⟩
    · rcases env.fetchone e with d3 | o
      · exact Or.inr ⟨"DB error: " ++ d3, rfl, Or.inr (Or.inr ⟨d3, rfl⟩)⟩
      · rcases o with _ | r
        · exact Or.inr ⟨"User not found", rfl, Or.inl rfl⟩
        · rcases hb : env.hverify p r.hashed_password with d4 | b
          · refine Or.inr ⟨"DB error: " ++ d4, ?_, Or.inr (Or.inr ⟨d4, rfl⟩)⟩
            simp [hb]
          · rcases b with _ | _
            · refine Or.inr ⟨"Incorrect password", ?_, Or.inr (Or.inl rfl)⟩
              simp [hb]
            · refine Or.inl ⟨r.id, ?_⟩
              simp [hb]

/-- C7: the claim that every run that acquired a connection releases it
before returning is false of the code.  `src/login.py` uses no context
manager and no `finally`: when `cur.execute` raises after the connection was
acquired, control jumps from line 21 to the handler on lines 31-32, skipping
`cur.close()`/`conn.close()` (lines 23-24), and the function returns with
both the connection and the cursor still open. -/
theorem connection_leaked_on_query_failure :
    (verify_credentials queryFailEnv "alice@example.com" "pw").finalState.connOpen = true ∧
    (verify_credentials queryFailEnv "alice@example.com" "pw").finalState.curOpen = true ∧
    (verify_credentials queryFailEnv "alice@example.com" "pw").result
      = (false, Sum.inr ("DB error: " ++ "query failed")) := by
  exact ⟨rfl, rfl, rfl⟩

/-- C8: `verify_credentials` consults its collaborators only at exactly the
strings it was given — no trimming, normalization or validation happens
before the lookup or the hash comparison: two environments that agree on the
connection outcome, on the query and fetch **at the supplied identifier**,
and on the hasher **at the supplied secret**, produce identical runs.  The
trimming mentioned by the spec is the caller's: `on_login` strips both entry
strings and passes the stripped values to `verify_credentials`. -/
theorem verify_uses_inputs_verbatim (env env2 : Env) (e p a b : String)
    (hc : env.connect = env2.connect)
    (hq : env.execute e = env2.execute e)
    (hf : env.fetchone e = env2.fetchone e)
    (hh : ∀ hb : String, env.hverify p hb = env2.hverify p hb) :
    verify_credentials env e p = verify_credentials env2 e p ∧
    on_login env a b = (verify_credentials env a.trim b.trim).result := by
  constructor
  · unfold verify_credentials
    rw [hc, hq, hf]
    simp only [hh]
  · rfl

theorem verify_uses_inputs_verbatim_witness :
    verify_credentials demoEnv "alice@example.com" "s3cr3t"
        = verify_credentials demoEnv2 "alice@example.com" "s3cr3t" ∧
    on_login demoEnv "  alice@example.com " " s3cr3t  "
        = (verify_credentials demoEnv "  alice@example.com ".trim " s3cr3t  ".trim).result :=
  verify_uses_inputs_verbatim demoEnv demoEnv2 "alice@example.com" "s3cr3t"
    "  alice@example.com " " s3cr3t  " rfl rfl rfl (fun _ => rfl)

/-- C9: when a record is found but the stored hash blob is malformed so that
passlib's `verify` raises instead of returning a boolean, the `except`
handler turns the raise into the store-error-class result
`(False, "DB error: " ++ d)`: the exception is not propagated, and the
outcome is not a success and collides with neither the not-found nor the
bad-password message. -/
theorem storeError_on_malformed_hash_blob (env : Env) (e p d : String)
    (r : CredentialRecord) (n : Nat)
    (hc : env.connect = .ok ()) (hq : env.execute e = .ok ())
    (hf : env.fetchone e = .ok (some r))
    (hh : env.hverify p r.hashed_password = .error d) :
    (verify_credentials env e p).result = (false, Sum.inr ("DB error: " ++ d)) ∧
    (verify_credentials env e p).result ≠ (true, Sum.inl n) ∧
    ("DB error: " ++ d) ≠ "User not found" ∧
    ("DB error: " ++ d) ≠ "Incorrect password" := by
  have hres : (verify_credentials env e p).result
      = (false, Sum.inr ("DB error: " ++ d)) := by
    unfold verify_credentials
    rw [hc, hq, hf]
    simp [hh]
  refine ⟨hres, ?_, dbError_ne_userNotFound d, dbError_ne_incorrectPassword d⟩
  rw [hres]
  simp

theorem storeError_on_malformed_hash_blob_witness :
    (verify_credentials malformedHashEnv "alice@example.com" "s3cr3t").result
        = (false, Sum.inr ("DB error: " ++ "malformed bcrypt hash")) ∧
    (verify_credentials malformedHashEnv "alice@example.com" "s3cr3t").result
        ≠ (true, Sum.inl 42) ∧
    ("DB error: " ++ "malformed bcrypt hash") ≠ "User not found" ∧
    ("DB error: " ++ "malformed bcrypt hash") ≠ "Incorrect password" :=
  storeError_on_malformed_hash_blob malformedHashEnv "alice@example.com" "s3cr3t"
    "malformed bcrypt hash" ⟨42, "alice@example.com", "not-a-bcrypt-blob"⟩ 42
    rfl rfl rfl rfl

/-- C10: on every run whose store lookup completes (connect, query and fetch
all succeed), the cursor close and the connection close both happen before
any invocation of the hash comparison, and the run returns with both
resources closed — so no store resource is held during the expensive hashing
step or when the success, not-found or bad-password outcome is built. -/
theorem resources_closed_before_hash_compare (env : Env) (e p : String)
    (o : Option CredentialRecord)
    (hc : env.connect = .ok ()) (hq : env.execute e = .ok ())
    (hf : env.fetchone e = .ok o) :
    closedBeforeHash (verify_credentials env e p).trace false false = true ∧
    (verify_credentials env e p).finalState
      = { connOpen := false, curOpen := false } := by
  unfold verify_credentials
  rw [hc, hq, hf]
  rcases o with _ | r
  · exact ⟨rfl, rfl⟩
  · rcases hb : env.hverify p r.hashed_password with d | b
    · exact ⟨by simp [hb, closedBeforeHash], by simp [hb]⟩
    · rcases b with _ | _
      · exact ⟨by simp [hb, closedBeforeHash], by simp [hb]⟩
      · exact ⟨by simp [hb, closedBeforeHash], by simp [hb]⟩

theorem resources_closed_before_hash_compare_witness :
    closedBeforeHash
        (verify_credentials demoEnv "alice@example.com" "s3cr3t").trace
        false false = true ∧
    (verify_credentials demoEnv "alice@example.com" "s3cr3t").finalState
      = { connOpen := false, curOpen := false } :=
  resources_closed_before_hash_compare demoEnv "alice@example.com" "s3cr3t"
    (some ⟨42, "alice@example.com", "h"⟩) rfl rfl rfl
